import Mathlib

/-!
Shallow embedding of the `user-sync` thread-synchronization library
(src/linux.rs, src/monitor.rs, src/barrier.rs, src/lib.rs).

The raw layer consists of three atomic state machines (Mutex, Barrier,
CondVar) over 32-bit atomic words, driven by a futex-style kernel
wait/wake/requeue primitive.  We embed each operation as a pure function
over the value(s) of its atomic word(s), threaded explicitly.  Kernel
futex calls are recorded as events in a trace; they perform no state
change of their own (a `futex_wait` merely parks the thread, and the
value observed at the next atomic operation after a wake-up is supplied
by an explicit environment/oracle list, which stands for the interference
of other threads and for spurious wake-ups).  When the oracle list runs
out while the thread would still be parked, the operation is `blocked`
(it has not returned).  Machine integers are modelled as `Nat` with
explicit reduction modulo 2^32 (`AtomicU32`) or 2^64 (`usize`/
`AtomicUsize`) where the source can overflow.
-/

namespace UserSync

/-- The `usize` value `!0` (all bits set) used by the source as the
    "wake everybody" count. -/
def usizeMax : Nat := 2 ^ 64 - 1

/-- Width modulus of an `AtomicU32` word. -/
def u32Mod : Nat := 2 ^ 32

/-- Width modulus of a `usize` / `AtomicUsize` value. -/
def usizeMod : Nat := 2 ^ 64

/-- Identity of a 32-bit atomic word, as passed to the kernel futex
    primitive.  Distinct mutexes, condition variables and barriers are
    distinguished by a numeric id. -/
inductive Addr : Type
  | mutexWord (id : Nat)
  | condSeq (id : Nat)
  | barrierSeq (id : Nat)
deriving DecidableEq, Repr

/-- Kernel futex calls issued by the library, as they appear in
    src/linux.rs: `futex_wait(f, val)`, `futex_wake(f, n)`, and
    `futex_reque(f, n, m, ptr)`. -/
inductive Ev : Type
  | wait (addr : Addr) (val : Nat)
  | wake (addr : Addr) (n : Nat)
  | reque (addr : Addr) (n m : Nat) (target : Addr)
deriving DecidableEq, Repr

/-- `AtomicU32::compare_and_swap(cur, new)` on a word holding `word`:
    returns (previous value, new word value). -/
def cas (word cur new : Nat) : Nat × Nat :=
  if word = cur then (word, new) else (word, word)

namespace Mutex

/-- The spin phase of `Mutex::lock` (src/linux.rs lines 15-19):
    `for _ in 0..spins { n = m.compare_and_swap(0, 1, Acquire); if n == 0 { return } }`.
    Sequential model: no other thread writes the word between attempts.
    The accumulator `n` mirrors the source variable `let mut n = 0`.
    Returns (n, word, acquired-early?). -/
def lockSpin : Nat → Nat → Nat → Nat × Nat × Bool
  | 0, n, word => (n, word, false)
  | Nat.succ spins, _, word =>
    let (n, word1) := cas word 0 1
    if n = 0 then (n, word1, true) else lockSpin spins n word1

/-- The futex loop of `Mutex::lock` (src/linux.rs lines 22-25):
    `while n > 0 { futex_wait(&m, 2); n = m.swap(2, Release); }`.
    `env` supplies the word value found by the swap after each wake-up
    (interference by other threads); `none` means the thread is still
    parked when `env` is exhausted.  Returns (final word, trace). -/
def lockLoop (aid : Nat) : List Nat → Nat → Nat → Option (Nat × List Ev)
  | _, 0, word => some (word, [])
  | [], Nat.succ _, _ => none
  | e :: env, Nat.succ _, _ =>
    (lockLoop aid env e 2).map fun r =>
      (r.1, Ev.wait (Addr.mutexWord aid) 2 :: r.2)

/-- `Mutex::lock(spins)` (src/linux.rs lines 13-26), sequential model.
    After the spin phase, `if n == 1 { n = m.swap(2, AcqRel) }`, then the
    futex loop.  Returns `some (final word, futex trace)` when the call
    returns, `none` while it is still blocked. -/
def lock (aid spins word : Nat) (env : List Nat) : Option (Nat × List Ev) :=
  let (n, word1, acquired) := lockSpin spins 0 word
  if acquired then some (word1, [])
  else
    let (n2, word2) := if n = 1 then (word1, 2) else (n, word1)
    lockLoop aid env n2 word2

/-- The spin phase of `Mutex::unlock` (src/linux.rs lines 30-35):
    `for _ in 0..spins { if m.load(Acquire) > 0 && m.compare_and_swap(1, 2, AcqRel) > 0 { return } }`
    followed by `futex_wake(&m, 1)` when no new locker appeared.
    `env` supplies the word value observed at each iteration (a new
    write by a new locker); when `env` is exhausted the word keeps its current
    value.  Returns (final word, trace). -/
def unlockSpin (aid : Nat) : Nat → List Nat → Nat → Nat × List Ev
  | 0, _, word => (word, [Ev.wake (Addr.mutexWord aid) 1])
  | Nat.succ spins, env, word =>
    let v := env.headD word
    if v > 0 then (if v = 1 then 2 else v, [])
    else unlockSpin aid spins env.tail v

/-- `Mutex::unlock(spins)` (src/linux.rs lines 28-37):
    `if m.swap(0, Release) == 1 { return }` then the spin phase above. -/
def unlock (aid spins word : Nat) (env : List Nat) : Nat × List Ev :=
  if word = 1 then (0, [])
  else unlockSpin aid spins env 0

/-- `Mutex::try_lock` (src/linux.rs lines 39-41):
    `self.0.compare_and_swap(0, 1, Acquire) == 0`.  A single CAS: no
    loop, no futex call (the result type carries no event trace because
    the source issues no syscall here).  Returns (success?, new word). -/
def try_lock (word : Nat) : Bool × Nat :=
  let (n, word1) := cas word 0 1
  (n = 0, word1)

end Mutex

/-- State of a `Barrier` (src/linux.rs lines 44-48): an `AtomicUsize`
    arrival counter, the immutable participant count, and an `AtomicU32`
    generation counter. -/
structure Barrier where
  n_waiting : Nat
  n_total : Nat
  seq : Nat
deriving DecidableEq, Repr

/-- Result of one `Barrier::wait` call: returned a Bool, still parked
    when the oracle ran out, or panicked. -/
inductive BarrierRes : Type
  | ret (b : Bool) (st : Barrier) (tr : List Ev)
  | blocked
  | panicked (msg : String)
deriving DecidableEq, Repr

namespace Barrier

/-- `Barrier::new(n)` (src/linux.rs lines 51-57). -/
def new (n : Nat) : Barrier := ⟨0, n, 0⟩

/-- The not-last-waiter loop of `Barrier::wait` (src/linux.rs lines 63-66):
    `while self.seq.load(Relaxed) == seq { futex_wait(&self.seq, seq); }`.
    `env` supplies the successive values of `self.seq` observed by the
    load (written by the last arriver of the round); one `futex_wait`
    event is issued per observation still equal to `seqv` (this is the
    re-block on a spurious wake-up).  `none` = still parked. -/
def waitInner (bid seqv : Nat) : List Nat → Option (List Ev)
  | [] => none
  | e :: env =>
    if e = seqv then
      (waitInner bid seqv env).map (Ev.wait (Addr.barrierSeq bid) seqv :: ·)
    else some []

/-- `Barrier::wait` (src/linux.rs lines 59-77).  The source wraps the
    body in `loop { ... }`, but every branch returns or panics, so the
    loop body runs exactly once.  `seq` is loaded first, then
    `n_waiting.fetch_add(1, Relaxed) + 1` gives the post-increment
    arrival count `k` (wrapping as `usize`).
    * `k < n_total`: park on `seq` via `waitInner`, return `false`;
    * `k = n_total`: store 0 to `n_waiting`, `seq.fetch_add(1, Release)`
      (wrapping as `u32`), `futex_wake(&self.seq, !0)`, return `true`;
    * otherwise: `panic!("Too many waiters")`. -/
def wait (bid : Nat) (st : Barrier) (env : List Nat) : BarrierRes :=
  let seqv := st.seq
  let k := (st.n_waiting + 1) % usizeMod
  let st1 : Barrier := { st with n_waiting := k }
  if k < st.n_total then
    match waitInner bid seqv env with
    | none => .blocked
    | some tr => .ret false st1 tr
  else if k = st.n_total then
    .ret true { st1 with n_waiting := 0, seq := (st1.seq + 1) % u32Mod }
      [Ev.wake (Addr.barrierSeq bid) usizeMax]
  else .panicked "Too many waiters"

end Barrier

/-- State of a `CondVar` (src/linux.rs lines 80-83): an
    `AtomicPtr<AtomicU32>` (modelled as `Option Nat`: `none` is the null
    pointer, `some aid` is the address of the state word of mutex `aid`)
    and an `AtomicU32` sequence counter. -/
structure CondVar where
  ptr : Option Nat
  seq : Nat
deriving DecidableEq, Repr

/-- Result of one `CondVar::wait` call in a debug build: returned
    (with the new condvar state, the final mutex word and the futex
    trace), still parked, or a failed `debug_assert`. -/
inductive CondVarRes : Type
  | ok (cv : CondVar) (mword : Nat) (tr : List Ev)
  | blocked
  | panicked (msg : String)
deriving DecidableEq, Repr

namespace CondVar

/-- `CondVar::new()` (src/linux.rs lines 86-91). -/
def new : CondVar := ⟨none, 0⟩

/-- `AtomicPtr::compare_and_swap(cmp, new)` on a pointer holding `cur`:
    returns (previous value, new pointer value). -/
def ptrCas (cur cmp new : Option Nat) : Option Nat × Option Nat :=
  if cur = cmp then (cur, new) else (cur, cur)

/-- The reacquire loop of `CondVar::wait` (src/linux.rs lines 110-112):
    `while 0 != m.0.swap(2, AcqRel) { futex_wait(&m.0, 2); }`.
    The swap happens first; `env` supplies the word value found by each
    subsequent swap after a wake-up.  Returns (final word, trace);
    `none` = still parked. -/
def reacquire (maid : Nat) : List Nat → Nat → Option (Nat × List Ev)
  | _, 0 => some (2, [])
  | [], Nat.succ _ => none
  | e :: env, Nat.succ _ =>
    (reacquire maid env e).map fun r =>
      (r.1, Ev.wait (Addr.mutexWord maid) 2 :: r.2)

/-- `CondVar::wait(&self, m)` in a debug build (src/linux.rs lines 93-113).
    Steps, faithful to the source:
    1. `debug_assert_ne!(0, m.0.load(Relaxed))` — caller must hold `m`;
    2. `let seq = self.seq.load(Acquire); let ptr = self.ptr.load(Acquire);`
    3. if `ptr` is null: `self.ptr.compare_and_swap(null, ptr, AcqRel)` —
       note the source passes `ptr`, the value just loaded (which is null
       in this branch), as the new value of the CAS — then
       `debug_assert_eq!(ptr, self.ptr.load(Relaxed), "CondVar used with multiple Mutexen")`;
       else `debug_assert_eq!(ptr, &m.0, "CondVar used with multiple Mutexen")`;
    4. `m.unlock(0x100)`;
    5. `futex_wait(&self.seq, seq)`;
    6. the reacquire loop.
    `mword` is the current value of the word of `m`; `uEnv` and `rEnv` are
    the interference oracles for the unlock spin and the reacquire loop. -/
def wait (cid : Nat) (cv : CondVar) (maid mword : Nat)
    (uEnv rEnv : List Nat) : CondVarRes :=
  if mword = 0 then .panicked "assertion failed: 0 != m.0.load(Relaxed)"
  else
    let seqv := cv.seq
    let ptrv := cv.ptr
    match ptrv with
    | none =>
      let (_, ptr1) := ptrCas cv.ptr none ptrv
      if ptrv ≠ ptr1 then .panicked "CondVar used with multiple Mutexen"
      else
        let cv1 : CondVar := { cv with ptr := ptr1 }
        let (w1, tr1) := Mutex.unlock maid 0x100 mword uEnv
        match reacquire maid rEnv w1 with
        | none => .blocked
        | some (w2, tr2) =>
          .ok cv1 w2 (tr1 ++ Ev.wait (Addr.condSeq cid) seqv :: tr2)
    | some aid =>
      if aid ≠ maid then .panicked "CondVar used with multiple Mutexen"
      else
        let (w1, tr1) := Mutex.unlock maid 0x100 mword uEnv
        match reacquire maid rEnv w1 with
        | none => .blocked
        | some (w2, tr2) =>
          .ok cv w2 (tr1 ++ Ev.wait (Addr.condSeq cid) seqv :: tr2)

/-- `CondVar::notify_one` (src/linux.rs lines 115-118):
    `self.seq.fetch_add(1, Relaxed); futex_wake(&self.seq, 1);`. -/
def notify_one (cid : Nat) (cv : CondVar) : CondVar × List Ev :=
  ({ cv with seq := (cv.seq + 1) % u32Mod }, [Ev.wake (Addr.condSeq cid) 1])

/-- `CondVar::notify_all` (src/linux.rs lines 120-125):
    `let ptr = self.ptr.load(Acquire); if ptr.is_null() { return; }
     self.seq.fetch_add(1, Relaxed); futex_reque(&self.seq, 1, !0, ptr);`. -/
def notify_all (cid : Nat) (cv : CondVar) : CondVar × List Ev :=
  match cv.ptr with
  | none => (cv, [])
  | some aid =>
    ({ cv with seq := (cv.seq + 1) % u32Mod },
     [Ev.reque (Addr.condSeq cid) 1 usizeMax (Addr.mutexWord aid)])

end CondVar

/-! The safe wrapper layer (src/monitor.rs).  `Mutex<T>` pairs the raw
mutex with a payload cell; `Guard` holds a back-reference to the raw
mutex and an exclusive reference to the payload, and its `Drop` impl
releases the lock.  We model the payload reference as the payload value
itself and the back-reference as the id of the raw mutex. -/

/-- The Guard type (src/monitor.rs lines 47-50): the back-reference to
    the raw mutex (field `lock`, a reference to the system mutex, modelled by its id) and
    the exclusive payload reference (field `valu`). -/
structure Guard (T : Type) where
  lockRef : Nat
  valu : T
deriving DecidableEq, Repr

namespace Monitor

/-- `Mutex<T>::lock` (src/monitor.rs lines 22-30): `self.lock.lock(0x100)`
    then a `Guard` bound to the raw mutex and the payload.  The state of
    the `Mutex<T>` is its raw word (`word`) plus the payload `v`; `env`
    is the interference oracle of the futex loop of the raw lock.  `none` =
    still blocked (the source call never fails, it blocks until
    acquired). -/
def lock (T : Type) (aid word : Nat) (v : T) (env : List Nat) :
    Option (Guard T × Nat) :=
  (Mutex.lock aid 0x100 word env).map fun r => (⟨aid, v⟩, r.1)

/-- `Mutex<T>::try_lock` (src/monitor.rs lines 34-43): on raw
    `try_lock` success, `Some(Guard { .. })`, else `None`.  Returns the
    optional guard and the raw word afterwards. -/
def try_lock (T : Type) (aid word : Nat) (v : T) : Option (Guard T) × Nat :=
  let (ok, word1) := Mutex.try_lock word
  (if ok then some ⟨aid, v⟩ else none, word1)

/-- `impl Drop for Guard` (src/monitor.rs lines 63-65):
    `fn drop(&mut self) { self.lock.unlock(0x100) }` — release of the
    guard, on any exit path from its scope, runs exactly this. -/
def guardDrop (T : Type) (g : Guard T) (word : Nat) (env : List Nat) :
    Nat × List Ev :=
  Mutex.unlock g.lockRef 0x100 word env

end Monitor

/-! ## Helper lemmas -/

/-- If a parked barrier waiter only ever observes the old generation, the
    inner while-loop never exits. -/
theorem waitInner_all_eq (bid s : Nat) :
    ∀ spur : List Nat, (∀ x ∈ spur, x = s) →
      Barrier.waitInner bid s spur = none := by
  intro spur
  induction spur with
  | nil => intro _; rfl
  | cons e env ih =>
    intro h
    have he : e = s := h e (List.mem_cons_self ..)
    simp [Barrier.waitInner, he, ih fun x hx => h x (List.mem_cons_of_mem _ hx)]

/-- A parked barrier waiter that observes the old generation `spur.length`
    times and then an advanced generation exits the inner loop having
    issued one futex wait per stale observation. -/
theorem waitInner_exit (bid s s2 : Nat) (hs2 : s2 ≠ s) :
    ∀ spur : List Nat, (∀ x ∈ spur, x = s) →
      Barrier.waitInner bid s (spur ++ [s2])
        = some (List.replicate spur.length (Ev.wait (Addr.barrierSeq bid) s)) := by
  intro spur
  induction spur with
  | nil => intro _; simp [Barrier.waitInner, hs2]
  | cons e env ih =>
    intro h
    have he : e = s := h e (List.mem_cons_self ..)
    simp [Barrier.waitInner, he, ih fun x hx => h x (List.mem_cons_of_mem _ hx),
      List.replicate_succ]

/-- The futex loop of `Mutex::lock` returns once the oracle supplies a 0
    (the lock became free at some wake-up). -/
theorem lockLoop_mem_zero (aid : Nat) :
    ∀ env : List Nat, 0 ∈ env → ∀ n word,
      Mutex.lockLoop aid env n word ≠ none := by
  intro env
  induction env with
  | nil => intro h; simp at h
  | cons e env ih =>
    intro h n word
    cases n with
    | zero => simp [Mutex.lockLoop]
    | succ k =>
      rcases List.mem_cons.mp h with he | he
      · simp [Mutex.lockLoop, ← he]
      · cases hl : Mutex.lockLoop aid env e 2 with
        | none => exact absurd hl (ih he e 2)
        | some r => simp [Mutex.lockLoop, hl]

/-- With no interference during the unlock spin phase, the phase ends in
    a single kernel wake of one waiter and the word stays 0. -/
theorem unlockSpin_no_interference (aid : Nat) :
    ∀ spins : Nat,
      Mutex.unlockSpin aid spins [] 0 = (0, [Ev.wake (Addr.mutexWord aid) 1]) := by
  intro spins
  induction spins with
  | zero => rfl
  | succ k ih => simpa [Mutex.unlockSpin] using ih

/-- `Barrier::wait` panics whenever the post-increment arrival count
    exceeds the configured participant count. -/
theorem wait_gt_panics (bid : Nat) (st : Barrier) (env : List Nat)
    (h : st.n_total < (st.n_waiting + 1) % usizeMod) :
    Barrier.wait bid st env = .panicked "Too many waiters" := by
  have h1 : ¬ (st.n_waiting + 1) % usizeMod < st.n_total := by omega
  have h2 : ¬ (st.n_waiting + 1) % usizeMod = st.n_total := by omega
  simp [Barrier.wait, h1, h2]

/-- `Mutex::lock` with an oracle ending in 0 always returns (the futex
    loop exits no later than that final observation of an unlocked word;
    the spin phase may of course return earlier). -/
theorem lock_env_ending_zero_returns (aid spins word : Nat) (env : List Nat) :
    Mutex.lock aid spins word (env ++ [0]) ≠ none := by
  have hmem : (0 : Nat) ∈ env ++ [0] := by simp
  rcases hsp : Mutex.lockSpin spins 0 word with ⟨n, w1, acq⟩
  cases acq with
  | true => simp [Mutex.lock, hsp]
  | false =>
    by_cases h1 : n = 1
    · simpa [Mutex.lock, hsp, h1] using lockLoop_mem_zero aid _ hmem w1 2
    · simpa [Mutex.lock, hsp, h1] using lockLoop_mem_zero aid _ hmem n w1

/-! ## Claim theorems -/

/-- Claim C1 (refuted — code bug).  The claim states that `RawMutex::lock`
    has acquired the lock whenever it returns, for every spin budget
    including 0, the word being nonzero on return.  In the source, with
    `spins = 0` the for-loop body never runs, `n` keeps its initial value
    0, so both the `if n == 1` swap and the `while n > 0` futex loop are
    skipped: `lock(0)` on an unlocked mutex (word 0) returns immediately
    as a no-op — no CAS, no futex call — and the word is still 0
    (unlocked) on return. -/
theorem lock_zero_spin_budget_returns_without_acquiring :
    Mutex.lock 0 0 0 [] = some (0, []) := rfl

/-- Claim C2 (refuted — code bug).  The claim states that the first
    `wait(m)` binds the pointer to the state word of `m`.  In the source
    the binding CAS is `self.ptr.compare_and_swap(null, ptr, AcqRel)`
    where `ptr` is the value just loaded from `self.ptr` — null in this
    branch — so the CAS stores null over null and the pointer is never
    set: after a first wait on mutex 7 (held, word 1) the pointer is
    still null, not the address of the word of mutex 7. -/
theorem condvar_first_wait_never_binds_ptr :
    CondVar.wait 0 CondVar.new 7 1 [] []
      = .ok ⟨none, 0⟩ 2 [Ev.wait (Addr.condSeq 0) 0] := rfl

/-- Claim C3 (refuted — code bug).  The claim states that after at least
    one `wait(m)` call, `notify_all` increments `seq` and issues a kernel
    requeue against the word of the bound mutex.  Because the binding CAS
    never stores the mutex address (see the C2 theorem), the pointer is
    still null after a wait, so `notify_all` takes the early-return
    branch: `seq` is not incremented and no kernel call is made. -/
theorem condvar_notify_all_noop_after_wait :
    CondVar.wait 1 CondVar.new 7 1 [] []
        = .ok ⟨none, 0⟩ 2 [Ev.wait (Addr.condSeq 1) 0]
      ∧ CondVar.notify_all 1 ⟨none, 0⟩ = (⟨none, 0⟩, []) := ⟨rfl, rfl⟩

/-- Claim C4 (confirmed).  In one round of a barrier with `n`
    participants at generation `s`, the arrival whose post-increment
    count `i` equals `n` returns `true`, resets `n_waiting` to 0,
    increments `seq` exactly once and wakes all waiters; every arrival
    with `i < n` re-blocks once per (possibly spurious) observation of
    the unchanged generation, stays blocked while every observation
    equals `s`, and returns `false` once it observes an advanced
    generation. -/
theorem barrier_round_single_winner (bid n s i : Nat) (h1 : 1 ≤ i)
    (h2 : i ≤ n) (hn : n < usizeMod) (hs : s + 1 < u32Mod)
    (spur : List Nat) (hspur : ∀ x ∈ spur, x = s) (s2 : Nat) (hs2 : s2 ≠ s) :
    (i < n →
      Barrier.wait bid ⟨i - 1, n, s⟩ (spur ++ [s2])
          = .ret false ⟨i, n, s⟩
              (List.replicate spur.length (Ev.wait (Addr.barrierSeq bid) s))
        ∧ Barrier.wait bid ⟨i - 1, n, s⟩ spur = .blocked)
    ∧ (i = n →
      Barrier.wait bid ⟨i - 1, n, s⟩ []
          = .ret true ⟨0, n, s + 1⟩ [Ev.wake (Addr.barrierSeq bid) usizeMax]) := by
  have hk : (i - 1 + 1) % usizeMod = i := by
    have hi : i - 1 + 1 = i := by omega
    rw [hi, Nat.mod_eq_of_lt (lt_of_le_of_lt h2 hn)]
  constructor
  · intro hin
    constructor
    · simp [Barrier.wait, hk, hin, waitInner_exit bid s s2 hs2 spur hspur]
    · simp [Barrier.wait, hk, hin, waitInner_all_eq bid s spur hspur]
  · intro hin
    subst hin
    simp [Barrier.wait, hk, Nat.mod_eq_of_lt hs]

/-- Witness for the C4 theorem at `n = 2`, `s = 5`, `i = 1`, one spurious
    wake-up. -/
theorem barrier_round_single_winner_witness :
    (1 : Nat) < 2 ∧
      (Barrier.wait 3 ⟨0, 2, 5⟩ ([5] ++ [6])
          = .ret false ⟨1, 2, 5⟩
              (List.replicate (List.length [5]) (Ev.wait (Addr.barrierSeq 3) 5))
        ∧ Barrier.wait 3 ⟨0, 2, 5⟩ [5] = .blocked) :=
  ⟨by decide,
    (barrier_round_single_winner 3 2 5 1 (by decide) (by decide) (by decide)
      (by decide) [5] (by decide) 6 (by decide)).1 (by decide)⟩

/-- Claim C5 (confirmed).  `RawMutex::unlock(spins)` swaps the word to 0;
    if the prior value was 1 it returns with no kernel call and an
    unlocked word; otherwise, when no new locker appears during the spin
    phase, it issues exactly one kernel wake for one waiter on the word;
    and when a new locker moves the word from 1 to 2 at the first spin
    attempt, it returns with no wake. -/
theorem unlock_uncontended_or_wake_one (aid spins word : Nat) (env : List Nat) :
    (word = 1 → Mutex.unlock aid spins word env = (0, []))
    ∧ (word ≠ 1 →
        Mutex.unlock aid spins word [] = (0, [Ev.wake (Addr.mutexWord aid) 1]))
    ∧ (word ≠ 1 → 1 ≤ spins →
        Mutex.unlock aid spins word (1 :: env) = (2, [])) := by
  refine ⟨fun h => by simp [Mutex.unlock, h], fun h => ?_, fun h hs => ?_⟩
  · simp [Mutex.unlock, h, unlockSpin_no_interference]
  · obtain ⟨k, rfl⟩ : ∃ k, spins = k + 1 := ⟨spins - 1, by omega⟩
    simp [Mutex.unlock, h, Mutex.unlockSpin]

/-- Witness for the C5 theorem: contended word 2, budget 3, no new
    locker: exactly one wake. -/
theorem unlock_uncontended_or_wake_one_witness :
    (2 : Nat) ≠ 1 ∧ Mutex.unlock 4 3 2 [] = (0, [Ev.wake (Addr.mutexWord 4) 1]) :=
  ⟨by decide, (unlock_uncontended_or_wake_one 4 3 2 []).2.1 (by decide)⟩

/-- Claim C6 (confirmed).  When the post-increment arrival count exceeds
    the configured participant count, `Barrier::wait` terminates the
    operation with the unrecoverable panic (message "Too many waiters" in
    the source) instead of returning a value. -/
theorem barrier_too_many_waiters_panics (bid : Nat) (st : Barrier)
    (env : List Nat) (h : st.n_total < (st.n_waiting + 1) % usizeMod) :
    Barrier.wait bid st env = .panicked "Too many waiters" :=
  wait_gt_panics bid st env h

/-- Witness for the C6 theorem: a barrier for 2 participants receiving a
    third wait in the round. -/
theorem barrier_too_many_waiters_panics_witness :
    (2 : Nat) < (2 + 1) % usizeMod
      ∧ Barrier.wait 0 ⟨2, 2, 0⟩ [] = .panicked "Too many waiters" :=
  ⟨by decide, barrier_too_many_waiters_panics 0 ⟨2, 2, 0⟩ [] (by decide)⟩

/-- Claim C7 (confirmed).  Raw `try_lock` is a single CAS(0→1): it
    succeeds iff the word is 0, in which case the word becomes 1 and
    otherwise keeps its value (no loop, no futex event — the result type
    of the embedding carries no trace because the source issues no
    syscall).  At the safe layer, single-thread check: locking mutex 9
    (payload 37) yields the guard and word 1; `try_lock` while that guard
    is live returns `None`; dropping the guard returns the word to 0;
    `try_lock` then returns `Some` guard. -/
theorem try_lock_single_cas_and_exclusivity :
    (∀ word, ((Mutex.try_lock word).1 = true ↔ word = 0)
      ∧ (Mutex.try_lock word).2 = (if word = 0 then 1 else word))
    ∧ (Monitor.lock Nat 9 0 37 [] = some (⟨9, 37⟩, 1)
      ∧ Monitor.try_lock Nat 9 1 37 = (none, 1)
      ∧ Monitor.guardDrop Nat ⟨9, 37⟩ 1 [] = (0, [])
      ∧ Monitor.try_lock Nat 9 0 37 = (some ⟨9, 37⟩, 1)) := by
  refine ⟨fun word => ⟨?_, ?_⟩, rfl, rfl, rfl, rfl⟩
  · by_cases h : word = 0 <;> simp [Mutex.try_lock, cas, h]
  · by_cases h : word = 0 <;> simp [Mutex.try_lock, cas, h]

/-- Claim C8 (refuted — code bug).  The claim states that in a debug
    build, a `wait` with a mutex different from the one bound on first
    use trips the "CondVar used with multiple Mutexen" assertion.
    Because the binding CAS never stores the mutex address (see the C2
    theorem), the pointer is still null at the second wait, which
    therefore takes the null branch again: its assertion compares the
    loaded null against the still-null pointer and passes, so waiting
    with two distinct mutexes (ids 7 then 8) completes twice with no
    panic. -/
theorem condvar_multiple_mutexen_assert_never_fires :
    CondVar.wait 5 CondVar.new 7 1 [] []
        = .ok ⟨none, 0⟩ 2 [Ev.wait (Addr.condSeq 5) 0]
      ∧ CondVar.wait 5 ⟨none, 0⟩ 8 1 [] []
        = .ok ⟨none, 0⟩ 2 [Ev.wait (Addr.condSeq 5) 0] := ⟨rfl, rfl⟩

/-- Claim C9 (confirmed).  The safe `Mutex<T>::lock` acquires the raw
    mutex with the fixed spin budget 0x100 and returns a Guard holding
    the back-reference to the raw mutex and the payload; it never fails:
    on an unlocked mutex it acquires immediately, and on any other word
    it blocks until the lock is observed free (oracle entry 0), then
    returns.  Guard release runs exactly one `RawMutex::unlock` with the
    same fixed budget 0x100; on an uncontended word this resets the word
    to 0 with no kernel call. -/
theorem monitor_lock_guard_budget (T : Type) (aid : Nat) (v : T)
    (env env2 : List Nat) :
    Monitor.lock T aid 0 v env = some (⟨aid, v⟩, 1)
    ∧ (∀ word, Monitor.lock T aid word v (env ++ [0]) ≠ none)
    ∧ (∀ g : Guard T, ∀ word,
        Monitor.guardDrop T g word env2 = Mutex.unlock g.lockRef 0x100 word env2)
    ∧ Monitor.guardDrop T ⟨aid, v⟩ 1 env2 = (0, []) := by
  refine ⟨rfl, fun word => ?_, fun g word => rfl, rfl⟩
  intro hnone
  exact lock_env_ending_zero_returns aid 0x100 word env
    (by simpa [Monitor.lock] using hnone)

/-- Claim C10 (confirmed).  A barrier constructed for 0 participants can
    never be waited on successfully: any wait call (while the usize
    arrival counter has not wrapped around, which no real execution
    reaches since every call dies) post-increments the counter to at
    least 1 > 0 = n_total and panics with "Too many waiters". -/
theorem barrier_zero_participants_wait_always_panics (bid : Nat)
    (st : Barrier) (env : List Nat) (h0 : st.n_total = 0)
    (h1 : st.n_waiting + 1 < usizeMod) :
    Barrier.wait bid st env = .panicked "Too many waiters" := by
  apply wait_gt_panics
  rw [h0, Nat.mod_eq_of_lt h1]
  omega

/-- Witness for the C10 theorem: the first wait on `Barrier::new(0)`. -/
theorem barrier_zero_participants_wait_always_panics_witness :
    (Barrier.new 0).n_total = 0
      ∧ (Barrier.new 0).n_waiting + 1 < usizeMod
      ∧ Barrier.wait 0 (Barrier.new 0) [] = .panicked "Too many waiters" :=
  ⟨rfl, by decide,
    barrier_zero_participants_wait_always_panics 0 (Barrier.new 0) [] rfl (by decide)⟩

end UserSync
